import Mathlib

/-!
# Wildfire-Prediction: shallow embedding of the risk-scoring core

This file embeds the decision logic of the Wildfare-Prediction repository:

* the additive-point risk scorer and base classification of the
  `/predict/` endpoint in `src/main.py` (lines 107-133),
* the historical-risk reconciliation step (lines 135-137),
* the historical-risk aggregation of `src/main.py` (lines 93-97) and of
  `src/backend/src/main.py` (lines 74-80),
* the in-function range validation of `src/main.py` (lines 99-105),
* the construction and persistence of the prediction record
  (lines 139-146) against the `PredictionBase` schema of
  `src/backend/src/schemas.py` (lines 31-37).

Environmental readings are Python floats used only in order comparisons
against decimal constants, so they are embedded as rationals (every float
is a rational and no arithmetic rounding occurs on the scoring path).
-/

/-- The four environmental readings consumed by the scorer
(`input_data.temperature`, `.humidity`, `.wind_speed`,
`.vegetation_index` in `src/main.py`). -/
structure EnvInput where
  temperature : ℚ
  humidity : ℚ
  wind_speed : ℚ
  vegetation_index : ℚ
  deriving DecidableEq

/-- Lines 107-125 of `src/main.py`: the additive point rule, written as the
source writes it — a running accumulator initialised to 0, each variable
adding at most one contribution via an `if`/`elif` chain. -/
def riskScore (i : EnvInput) : Nat :=
  let s0 : Nat := 0
  let s1 := if i.temperature > 35 then s0 + 3
            else if i.temperature > 30 then s0 + 2 else s0
  let s2 := if i.humidity < 30 then s1 + 2 else s1
  let s3 := if i.wind_speed > 20 then s2 + 3
            else if i.wind_speed > 15 then s2 + 2 else s2
  let s4 := if i.vegetation_index < 0.5 then s3 + 3
            else if i.vegetation_index < 0.7 then s3 + 2 else s3
  s4

/-- Lines 127-133 of `src/main.py`: base risk level from the summed score. -/
def baseLevel (score : Nat) : String :=
  if score ≥ 8 then "High"
  else if score ≥ 5 then "Moderate"
  else "Low"

/-- Lines 135-137 of `src/main.py`: historical reconciliation — if the
historical risk is "High" and the base level is not already "High",
the level becomes "Moderate". -/
def finalLevel (i : EnvInput) (historical_risk : String) : String :=
  let risk_level := baseLevel (riskScore i)
  if historical_risk = "High" ∧ risk_level ≠ "High" then "Moderate"
  else risk_level

/- Spec-side contribution functions, one per variable, following the
words of the point table in spec §4.2 (for the refinement comparison of
claim C1 only; the code-side definition is `riskScore` above). -/

/-- Spec table row for temperature: `> 35` gives +3, `> 30 and ≤ 35`
gives +2, else 0. -/
def specTempPoints (t : ℚ) : Nat :=
  if t > 35 then 3 else if 30 < t ∧ t ≤ 35 then 2 else 0

/-- Spec table row for humidity: `< 30` gives +2, else 0. -/
def specHumidityPoints (h : ℚ) : Nat :=
  if h < 30 then 2 else 0

/-- Spec table row for wind speed: `> 20` gives +3, `> 15 and ≤ 20`
gives +2, else 0. -/
def specWindPoints (w : ℚ) : Nat :=
  if w > 20 then 3 else if 15 < w ∧ w ≤ 20 then 2 else 0

/-- Spec table row for vegetation index: `< 0.5` gives +3,
`≥ 0.5 and < 0.7` gives +2, else 0. -/
def specVegPoints (v : ℚ) : Nat :=
  if v < 0.5 then 3 else if 0.5 ≤ v ∧ v < 0.7 then 2 else 0

/-- The descriptive text field `historical_data` of a `HistoricalData`
record as Python sees it: either an actual `str` value, or a missing or
non-string value (`None`, a number, ...). -/
inductive HistText where
  | str (s : String)
  | nonstr
  deriving DecidableEq

/-- Predicate `charsAgree p c`: the character list `c` starts with the pattern
`p` (character-by-character comparison). -/
def charsAgree : List Char → List Char → Bool
  | [], _ => true
  | _ :: _, [] => false
  | p :: ps, c :: cs => p == c && charsAgree ps cs

/-- Predicate `hasSubChars pat l`: some suffix of `l` starts with `pat` — list
form of Python substring containment `pat in l`. -/
def hasSubChars (pat : List Char) : List Char → Bool
  | [] => pat.isEmpty
  | c :: cs => charsAgree pat (c :: cs) || hasSubChars pat cs

/-- Python `"HIGH" in s.upper()`: the uppercased text contains the
substring `"HIGH"`. -/
def containsHIGH (s : String) : Bool :=
  hasSubChars "HIGH".toList (s.toList.map Char.toUpper)

/-- The generator sum at `src/main.py` line 96: count records whose text
contains `"HIGH"`; a missing or non-string `historical_data` makes
`.upper()` raise, modelled as `Except.error`. -/
def countHighMain : List HistText → Except Unit Nat
  | [] => Except.ok 0
  | HistText.str s :: rest =>
      (countHighMain rest).map (fun n => (if containsHIGH s then 1 else 0) + n)
  | HistText.nonstr :: _ => Except.error ()

/-- Lines 93-97 of `src/main.py`: historical risk starts `"Unknown"`; when
the record list is non-empty, the `"HIGH"` count is compared against half
the total using Python real division (`c > n / 2` over ℚ); a non-string
record raises (the endpoint then answers 500). -/
def classifyMain (records : List HistText) : Except Unit String :=
  if records.isEmpty then Except.ok "Unknown"
  else (countHighMain records).map
    (fun c : Nat => if (c : ℚ) > (records.length : ℚ) / 2 then "High" else "Low")

/-- Lines 75-77 of `src/backend/src/main.py`: keep records whose
`historical_data` is truthy and an instance of `str` (Python truthiness
also drops the empty string). -/
def validHistorical (records : List HistText) : List HistText :=
  records.filter (fun r => match r with
    | HistText.str s => !s.isEmpty
    | HistText.nonstr => false)

/-- The count of `"HIGH"` records over an already-filtered list
(`src/backend/src/main.py` lines 78-79). -/
def countHighValid (records : List HistText) : Nat :=
  (records.filter (fun r => match r with
    | HistText.str s => containsHIGH s
    | HistText.nonstr => false)).length

/-- Lines 74-80 of `src/backend/src/main.py`: `"High"` iff the filtered list
is non-empty and the `"HIGH"` count strictly exceeds half its length
(real division); otherwise `"Low"` — including when nothing survives the
filter. -/
def classifyBackend (records : List HistText) : String :=
  let valid := validHistorical records
  if 0 < valid.length ∧ (countHighValid valid : ℚ) > (valid.length : ℚ) / 2
  then "High" else "Low"

/-- The fields of the caller-supplied `PredictionCreate` body that the
`/predict/` endpoint of `src/main.py` reads. -/
structure PredictRequest where
  location_id : Nat
  temperature : ℚ
  humidity : ℚ
  wind_speed : ℚ
  vegetation_index : ℚ
  date_generated : Nat
  deriving DecidableEq

/-- The four environmental readings of a request. -/
def envOf (r : PredictRequest) : EnvInput :=
  ⟨r.temperature, r.humidity, r.wind_speed, r.vegetation_index⟩

/-- A stored prediction row, with exactly the fields of `PredictionBase`
in `src/backend/src/schemas.py` lines 31-37: `risk_level`,
`date_generated`, `location_id` — the schema has no risk-score field. -/
structure Prediction where
  risk_level : String
  date_generated : Nat
  location_id : Nat
  deriving DecidableEq

/-- Lines 99-105 of `src/main.py`: in-function range validation, in source
order, returning the HTTP 400 detail of the first failing check. -/
def rangeError (r : PredictRequest) : Option String :=
  if ¬(0 ≤ r.temperature ∧ r.temperature ≤ 60) then some "Temperature out of range"
  else if ¬(0 ≤ r.humidity ∧ r.humidity ≤ 100) then some "Humidity out of range"
  else if ¬(0 ≤ r.wind_speed ∧ r.wind_speed ≤ 150) then some "Wind speed out of range"
  else none

/-- Lines 84-146 of `src/main.py`, the `/predict/` endpoint: location
lookup, historical aggregation, range validation, scoring,
reconciliation, then persistence of a fresh row (`db ++ [p]`). The
result pairs the HTTP outcome with the prediction store after the call;
`now` is the timestamp `datetime.now(timezone.utc)` taken at scoring
time. -/
def predictEndpoint (req : PredictRequest) (locationExists : Bool)
    (hist : List HistText) (now : Nat) (db : List Prediction) :
    Except String Prediction × List Prediction :=
  if ¬locationExists then (Except.error "Location not found", db)
  else
    match classifyMain hist with
    | Except.error _ => (Except.error "Internal Server Error", db)
    | Except.ok historical_risk =>
      match rangeError req with
      | some msg => (Except.error msg, db)
      | none =>
        let p : Prediction :=
          { risk_level := finalLevel (envOf req) historical_risk,
            date_generated := now, location_id := req.location_id }
        (Except.ok p, db ++ [p])

/-- The spec-declared field ranges (spec §3/§7): temperature in -50..60,
humidity in 0..100, wind_speed ≥ 0, vegetation_index in 0..1. Used for
the refinement comparison of claims C5 and C7; the code-side validation
is `rangeError` above. -/
def specInRange (r : PredictRequest) : Prop :=
  (-50 ≤ r.temperature ∧ r.temperature ≤ 60) ∧
  (0 ≤ r.humidity ∧ r.humidity ≤ 100) ∧
  0 ≤ r.wind_speed ∧
  (0 ≤ r.vegetation_index ∧ r.vegetation_index ≤ 1)

/-- Spec-declared validity of an environmental input (same ranges as
`specInRange`, on `EnvInput`). -/
def validEnv (i : EnvInput) : Prop :=
  (-50 ≤ i.temperature ∧ i.temperature ≤ 60) ∧
  (0 ≤ i.humidity ∧ i.humidity ≤ 100) ∧
  0 ≤ i.wind_speed ∧
  (0 ≤ i.vegetation_index ∧ i.vegetation_index ≤ 1)


/-! ## Helper lemmas -/

/-- The temperature table row of the spec agrees with the source
`if`/`elif` chain. -/
theorem specTempPoints_eq_code (t : ℚ) :
    specTempPoints t = (if t > 35 then 3 else if t > 30 then 2 else 0) := by
  unfold specTempPoints
  by_cases h1 : t > 35
  · simp [h1]
  · by_cases h2 : t > 30
    · have h3 : t ≤ 35 := le_of_not_lt h1
      simp [h1, h2, h3]
    · simp [h1, h2]

/-- The wind-speed table row of the spec agrees with the source
`if`/`elif` chain. -/
theorem specWindPoints_eq_code (w : ℚ) :
    specWindPoints w = (if w > 20 then 3 else if w > 15 then 2 else 0) := by
  unfold specWindPoints
  by_cases h1 : w > 20
  · simp [h1]
  · by_cases h2 : w > 15
    · have h3 : w ≤ 20 := le_of_not_lt h1
      simp [h1, h2, h3]
    · simp [h1, h2]

/-- The vegetation table row of the spec agrees with the source
`if`/`elif` chain. -/
theorem specVegPoints_eq_code (v : ℚ) :
    specVegPoints v = (if v < 0.5 then 3 else if v < 0.7 then 2 else 0) := by
  unfold specVegPoints
  by_cases h1 : v < 0.5
  · simp [h1]
  · by_cases h2 : v < 0.7
    · have h3 : (0.5 : ℚ) ≤ v := le_of_not_lt h1
      simp [h1, h2, h3]
    · simp [h1, h2]

/-- The running accumulator of `riskScore` equals the sum of the four
independent per-variable contributions, in source shape. -/
theorem riskScore_decomp (t h w v : ℚ) :
    riskScore ⟨t, h, w, v⟩ =
      (if t > 35 then 3 else if t > 30 then 2 else 0)
      + (if h < 30 then 2 else 0)
      + (if w > 20 then 3 else if w > 15 then 2 else 0)
      + (if v < 0.5 then 3 else if v < 0.7 then 2 else 0) := by
  unfold riskScore
  dsimp only
  split_ifs <;> omega

/-- Characterisation of `baseLevel` by score thresholds. -/
theorem baseLevel_iff (s : Nat) :
    (baseLevel s = "High" ↔ 8 ≤ s) ∧
    (baseLevel s = "Moderate" ↔ 5 ≤ s ∧ s < 8) ∧
    (baseLevel s = "Low" ↔ s < 5) := by
  unfold baseLevel
  split_ifs with h1 h2 <;> simp_all
  omega

/-! ## Claims -/

/-- C1: for every environmental input, the risk score is the sum of
exactly one contribution per variable per the additive point table
(temperature > 35 → +3, 30 < temperature ≤ 35 → +2; humidity < 30 → +2;
wind_speed > 20 → +3, 15 < wind_speed ≤ 20 → +2; vegetation_index < 0.5
→ +3, 0.5 ≤ vegetation_index < 0.7 → +2), and the base classification is
High iff score ≥ 8, Moderate iff 5 ≤ score < 8, Low otherwise. -/
theorem C1_additive_points_and_base_classification (i : EnvInput) :
    riskScore i = specTempPoints i.temperature + specHumidityPoints i.humidity
        + specWindPoints i.wind_speed + specVegPoints i.vegetation_index ∧
    (baseLevel (riskScore i) = "High" ↔ 8 ≤ riskScore i) ∧
    (baseLevel (riskScore i) = "Moderate" ↔ 5 ≤ riskScore i ∧ riskScore i < 8) ∧
    (baseLevel (riskScore i) = "Low" ↔ riskScore i < 5) := by
  obtain ⟨t, h, w, v⟩ := i
  refine ⟨?_, baseLevel_iff _⟩
  dsimp only
  rw [riskScore_decomp, specTempPoints_eq_code, specWindPoints_eq_code, specVegPoints_eq_code]
  unfold specHumidityPoints
  omega

/-- C2: when the historical classification is High, a Low or Moderate
base classification becomes exactly Moderate and a High base
classification stays High; any other historical value leaves the base
classification unchanged. -/
theorem C2_historical_reconciliation (i : EnvInput) (hr : String) :
    (hr ≠ "High" → finalLevel i hr = baseLevel (riskScore i)) ∧
    (hr = "High" →
      ((baseLevel (riskScore i) = "Low" ∨ baseLevel (riskScore i) = "Moderate") →
          finalLevel i hr = "Moderate") ∧
      (baseLevel (riskScore i) = "High" → finalLevel i hr = "High")) := by
  unfold finalLevel
  dsimp only
  constructor
  · intro hne
    split_ifs with hc
    · exact absurd hc.1 hne
    · rfl
  · intro he
    subst he
    constructor
    · rintro (hb | hb) <;> simp [hb]
    · intro hb
      simp [hb]

/-- C2 witness: at temperature 32 (base Low) with historical High the
final level is Moderate, and historical Unknown leaves the base. -/
theorem C2_historical_reconciliation_witness :
    finalLevel ⟨32, 50, 10, 0.8⟩ "High" = "Moderate" ∧
    finalLevel ⟨32, 50, 10, 0.8⟩ "Unknown" = baseLevel (riskScore ⟨32, 50, 10, 0.8⟩) := by
  have hbase : baseLevel (riskScore ⟨32, 50, 10, 0.8⟩) = "Low" := by
    norm_num [riskScore, baseLevel]
  constructor
  · exact ((C2_historical_reconciliation ⟨32, 50, 10, 0.8⟩ "High").2 rfl).1 (Or.inl hbase)
  · exact (C2_historical_reconciliation ⟨32, 50, 10, 0.8⟩ "Unknown").1 (by simp)

/-- C9: with historical classification Unknown, scenario A
(temperature 40, humidity 20, wind 25, vegetation 0.3) scores 11 and
classifies High, and scenario D (temperature 31, humidity 25, wind 16,
vegetation 0.6) scores 8 and classifies High. -/
theorem C9_concrete_scenarios :
    riskScore ⟨40, 20, 25, 0.3⟩ = 11 ∧
    finalLevel ⟨40, 20, 25, 0.3⟩ "Unknown" = "High" ∧
    riskScore ⟨31, 25, 16, 0.6⟩ = 8 ∧
    finalLevel ⟨31, 25, 16, 0.6⟩ "Unknown" = "High" := by
  refine ⟨by norm_num [riskScore], ?_, by norm_num [riskScore], ?_⟩ <;>
    · norm_num [finalLevel, baseLevel, riskScore]

/-- The Python real-division majority test `n / 2 < c` over ℚ matches the
integer strict-majority test `n < 2 * c`. -/
theorem halfLt_iff (c n : Nat) : ((n : ℚ) / 2 < (c : ℚ)) ↔ n < 2 * c := by
  rw [div_lt_iff₀ (by norm_num : (0 : ℚ) < 2)]
  norm_cast
  omega

/-- C7: for every valid environmental input, the risk score is a
deterministic integer between 0 and 13 (the additive rule in fact never
exceeds 11). -/
theorem C7_score_range (i : EnvInput) (hv : validEnv i) :
    0 ≤ riskScore i ∧ riskScore i ≤ 13 := by
  obtain ⟨t, h, w, v⟩ := i
  rw [riskScore_decomp]
  refine ⟨Nat.zero_le _, ?_⟩
  split_ifs <;> omega

/-- C7 witness: scenario A is valid and its score lies in 0..13. -/
theorem C7_score_range_witness :
    0 ≤ riskScore ⟨40, 20, 25, 0.3⟩ ∧ riskScore ⟨40, 20, 25, 0.3⟩ ≤ 13 :=
  C7_score_range ⟨40, 20, 25, 0.3⟩ (by norm_num [validEnv])

/-- C8: the risk score is monotonically non-decreasing in temperature,
in wind speed, and in 1 - vegetation_index, and non-increasing in
humidity, the other fields held fixed. -/
theorem C8_monotonicity (t h w v a : ℚ) :
    (t ≤ a → riskScore ⟨t, h, w, v⟩ ≤ riskScore ⟨a, h, w, v⟩) ∧
    (w ≤ a → riskScore ⟨t, h, w, v⟩ ≤ riskScore ⟨t, h, a, v⟩) ∧
    (1 - v ≤ 1 - a → riskScore ⟨t, h, w, v⟩ ≤ riskScore ⟨t, h, w, a⟩) ∧
    (h ≤ a → riskScore ⟨t, a, w, v⟩ ≤ riskScore ⟨t, h, w, v⟩) := by
  refine ⟨fun hle => ?_, fun hle => ?_, fun hle => ?_, fun hle => ?_⟩ <;>
      rw [riskScore_decomp, riskScore_decomp]
  · have hpt : (if t > 35 then (3 : ℕ) else if t > 30 then 2 else 0) ≤
        (if a > 35 then 3 else if a > 30 then 2 else 0) := by
      split_ifs <;> first | omega | (exfalso; linarith)
    omega
  · have hpt : (if w > 20 then (3 : ℕ) else if w > 15 then 2 else 0) ≤
        (if a > 20 then 3 else if a > 15 then 2 else 0) := by
      split_ifs <;> first | omega | (exfalso; linarith)
    omega
  · have hva : a ≤ v := by linarith
    have hpt : (if v < 0.5 then (3 : ℕ) else if v < 0.7 then 2 else 0) ≤
        (if a < 0.5 then 3 else if a < 0.7 then 2 else 0) := by
      split_ifs <;> first | omega | (exfalso; linarith)
    omega
  · have hpt : (if a < 30 then (2 : ℕ) else 0) ≤ (if h < 30 then 2 else 0) := by
      split_ifs <;> first | omega | (exfalso; linarith)
    omega

/-- C8 witness: raising temperature from 31 to 40 does not lower the
score (the other readings of scenario D held fixed). -/
theorem C8_monotonicity_witness :
    riskScore ⟨31, 25, 16, 0.6⟩ ≤ riskScore ⟨40, 25, 16, 0.6⟩ :=
  (C8_monotonicity 31 25 16 0.6 40).1 (by norm_num)

/-- When the record list is non-empty and counting succeeds, the root
aggregator applies the real-division majority test to the count. -/
theorem classifyMain_ok_of_count (records : List HistText) (hne : ¬records.isEmpty = true)
    (c : Nat) (hcm : countHighMain records = Except.ok c) :
    classifyMain records =
      Except.ok (if (c : ℚ) > (records.length : ℚ) / 2 then "High" else "Low") := by
  unfold classifyMain
  rw [if_neg hne, hcm]
  rfl

/-- C3: the backend aggregator returns High iff the filtered set is
non-empty and the "HIGH" count strictly exceeds half the filtered count
(real division), a non-empty filtered set without strict majority
returns Low, and the root aggregator returns High iff the list is
non-empty, counting succeeded, and the count strictly exceeds half the
total. -/
theorem C3_strict_majority (records : List HistText) :
    (classifyBackend records = "High" ↔
        validHistorical records ≠ [] ∧
        (validHistorical records).length < 2 * countHighValid (validHistorical records)) ∧
    (validHistorical records ≠ [] ∧
        2 * countHighValid (validHistorical records) ≤ (validHistorical records).length →
      classifyBackend records = "Low") ∧
    (classifyMain records = Except.ok "High" ↔
        records ≠ [] ∧
        ∃ c, countHighMain records = Except.ok c ∧ records.length < 2 * c) := by
  have hiff := halfLt_iff (countHighValid (validHistorical records))
    (validHistorical records).length
  refine ⟨?_, ?_, ?_⟩
  · unfold classifyBackend
    dsimp only
    split_ifs with hcond
    · simp only [true_iff]
      exact ⟨List.length_pos.mp hcond.1, hiff.mp hcond.2⟩
    · simp only [show ("Low" : String) ≠ "High" from by simp, false_iff]
      intro hx
      exact hcond ⟨List.length_pos.mpr hx.1, hiff.mpr hx.2⟩
  · intro hx
    unfold classifyBackend
    dsimp only
    rw [if_neg]
    intro hcond
    exact absurd (hiff.mp hcond.2) (by omega)
  · by_cases hemp : records.isEmpty
    · have hnil : records = [] := List.isEmpty_iff.mp hemp
      unfold classifyMain
      rw [if_pos hemp]
      simp [hnil]
    · have hne : records ≠ [] := fun hh => hemp (by simp [hh])
      cases hcm : countHighMain records with
      | error e =>
        unfold classifyMain
        rw [if_neg hemp, hcm]
        simp only [Except.map]
        constructor
        · intro hbad
          exact absurd hbad (by simp)
        · rintro ⟨-, c2, hc2, -⟩
          exact absurd hc2 (by simp)
      | ok c =>
        rw [classifyMain_ok_of_count records hemp c hcm]
        have hc := halfLt_iff c records.length
        by_cases hmaj : (c : ℚ) > (records.length : ℚ) / 2
        · rw [if_pos hmaj]
          simp only [Except.ok.injEq, true_iff]
          exact ⟨hne, c, rfl, hc.mp hmaj⟩
        · rw [if_neg hmaj]
          constructor
          · intro hbad
            exact absurd hbad (by simp)
          · rintro ⟨-, c2, hc2, hlt⟩
            injection hc2 with hc2e
            exact absurd (hc.mpr (hc2e ▸ hlt)) hmaj

/-- C3 witness: one "HIGH" record among two yields Low and two among
three yield High (backend aggregator). -/
theorem C3_strict_majority_witness :
    classifyBackend [HistText.str "HIGH risk", HistText.str "calm"] = "Low" ∧
    classifyBackend [HistText.str "HIGH risk", HistText.str "high fire", HistText.str "calm"]
      = "High" := by
  constructor
  · exact (C3_strict_majority _).2.1 (by decide)
  · exact ((C3_strict_majority _).1).mpr (by decide)

/-- Counting in the root aggregator raises exactly when the text of some record is missing or not a string. -/
theorem countHighMain_error_iff (records : List HistText) :
    countHighMain records = Except.error () ↔ HistText.nonstr ∈ records := by
  induction records with
  | nil => simp [countHighMain]
  | cons r rest ih =>
    cases r with
    | str s =>
      simp only [countHighMain, List.mem_cons]
      cases hcm : countHighMain rest with
      | error e =>
        cases e
        rw [hcm] at ih
        simp [Except.map, ih.mp rfl]
      | ok c =>
        rw [hcm] at ih
        simp only [Except.map]
        constructor
        · intro hbad
          exact absurd hbad (by simp)
        · rintro (hbad | hmem)
          · exact absurd hbad (by simp)
          · exact absurd (ih.mpr hmem) (by simp)
    | nonstr => simp [countHighMain]

/-- C4 counterexample: a single non-string record is not silently
filtered by the root aggregator — its counting step raises — and the
backend aggregator answers Low, not Unknown, when every record is
filtered out. -/
theorem C4_counterexample :
    classifyMain [HistText.nonstr] = Except.error () ∧
    classifyBackend [HistText.nonstr] = "Low" := by
  constructor
  · rfl
  · simp [classifyBackend, validHistorical, countHighValid]

/-- C4 amended: the root aggregator performs no filtering — it raises on
any missing/non-string record and returns Unknown exactly on the empty
list — while the backend aggregator filters silently but answers Low,
never Unknown, when the filtered set is empty. -/
theorem C4_amended (records : List HistText) :
    (classifyMain records = Except.ok "Unknown" ↔ records = []) ∧
    (classifyMain records = Except.error () ↔ HistText.nonstr ∈ records) ∧
    classifyBackend records ≠ "Unknown" := by
  refine ⟨?_, ?_, ?_⟩
  · unfold classifyMain
    by_cases hemp : records.isEmpty
    · simp [hemp, List.isEmpty_iff.mp hemp]
    · have hne : ¬records = [] := by simpa [List.isEmpty_iff] using hemp
      rw [if_neg hemp]
      simp only [hne, iff_false]
      cases hcm : countHighMain records with
      | error e => simp [Except.map]
      | ok c =>
        simp only [Except.map]
        split_ifs <;> simp
  · unfold classifyMain
    by_cases hemp : records.isEmpty
    · have hnil : records = [] := List.isEmpty_iff.mp hemp
      simp [hemp, hnil]
    · rw [if_neg hemp, ← countHighMain_error_iff]
      cases hcm : countHighMain records with
      | error e =>
        cases e
        simp [Except.map]
      | ok c => simp [Except.map]
  · unfold classifyBackend
    dsimp only
    split_ifs <;> simp

/-- C4 witness: the amended description applied to the empty list — the
backend aggregator answers Low there, not Unknown. -/
theorem C4_amended_witness : classifyBackend [] ≠ "Unknown" :=
  (C4_amended []).2.2

/-- C5 counterexample: temperature -10 lies inside the declared
-50..60 range of the spec (every other field in range as well), yet the
in-function validation rejects the input; vegetation_index 2 is outside the declared
0..1 range, yet validation accepts it. -/
theorem C5_counterexample :
    specInRange ⟨1, -10, 50, 10, 0.5, 0⟩ ∧
    rangeError ⟨1, -10, 50, 10, 0.5, 0⟩ = some "Temperature out of range" ∧
    ¬specInRange ⟨1, 40, 50, 10, 2, 0⟩ ∧
    rangeError ⟨1, 40, 50, 10, 2, 0⟩ = none := by
  refine ⟨?_, ?_, ?_, ?_⟩ <;> norm_num [specInRange, rangeError]

/-- C5 amended: the endpoint rejects exactly when temperature is outside
0..60, humidity outside 0..100, or wind_speed outside 0..150;
vegetation_index is never validated; any input passing those three
checks is accepted and scored. -/
theorem C5_amended (req : PredictRequest) (hist : List HistText)
    (now : Nat) (db : List Prediction) :
    (rangeError req = none ↔
      (0 ≤ req.temperature ∧ req.temperature ≤ 60) ∧
      (0 ≤ req.humidity ∧ req.humidity ≤ 100) ∧
      (0 ≤ req.wind_speed ∧ req.wind_speed ≤ 150)) ∧
    (rangeError req = none → ∀ hr, classifyMain hist = Except.ok hr →
      (predictEndpoint req true hist now db).1 =
        Except.ok ⟨finalLevel (envOf req) hr, now, req.location_id⟩) := by
  constructor
  · unfold rangeError
    constructor
    · intro hnone
      split_ifs at hnone with h1 h2 h3
      exact ⟨h1, h2, h3⟩
    · intro hx
      rw [if_neg (not_not.mpr hx.1), if_neg (not_not.mpr hx.2.1),
        if_neg (not_not.mpr hx.2.2)]
  · intro hok hr hcl
    unfold predictEndpoint
    rw [hcl, hok]
    simp

/-- C5 witness: the readings of scenario A pass validation and the endpoint
scores them to a stored High prediction. -/
theorem C5_amended_witness :
    (predictEndpoint ⟨7, 40, 20, 25, 0.3, 0⟩ true [] 42 []).1 =
      Except.ok ⟨"High", 42, 7⟩ := by
  have h := (C5_amended ⟨7, 40, 20, 25, 0.3, 0⟩ [] 42 []).2
    (by norm_num [rangeError]) "Unknown" rfl
  rw [h]
  norm_num [finalLevel, baseLevel, riskScore, envOf]

/-- C6 counterexample: two inputs whose risk scores differ (9 versus 11)
produce byte-for-byte identical stored predictions — the produced
assessment does not carry the raw risk score, because the
`PredictionBase` schema has no such field. -/
theorem C6_counterexample :
    riskScore ⟨40, 50, 25, 0.3⟩ = 9 ∧
    riskScore ⟨40, 20, 25, 0.3⟩ = 11 ∧
    predictEndpoint ⟨1, 40, 50, 25, 0.3, 0⟩ true [] 5 [] =
      predictEndpoint ⟨1, 40, 20, 25, 0.3, 0⟩ true [] 5 [] := by
  refine ⟨by norm_num [riskScore], by norm_num [riskScore], ?_⟩
  norm_num [predictEndpoint, rangeError, classifyMain, envOf, finalLevel, baseLevel, riskScore]

/-- C6 amended: every successfully produced prediction consists of
exactly the final risk level, the owning location id, and the generation
timestamp taken at scoring time — independent of the caller-supplied
`date_generated` — and carries no risk-score field. -/
theorem C6_amended (req : PredictRequest) (locationExists : Bool) (hist : List HistText)
    (now : Nat) (db : List Prediction) (p : Prediction)
    (hp : (predictEndpoint req locationExists hist now db).1 = Except.ok p) :
    p.date_generated = now ∧ p.location_id = req.location_id ∧
    (∃ hr, classifyMain hist = Except.ok hr ∧ p.risk_level = finalLevel (envOf req) hr) ∧
    ∀ d, (predictEndpoint { req with date_generated := d } locationExists hist now db).1
        = Except.ok p := by
  cases locationExists with
  | false =>
    unfold predictEndpoint at hp
    rw [if_pos (by simp)] at hp
    exact absurd hp (by simp)
  | true =>
    obtain ⟨loc, t, h, w, v, d0⟩ := req
    unfold predictEndpoint at hp ⊢
    rw [if_neg (by simp)] at hp
    cases hcl : classifyMain hist with
    | error e =>
      rw [hcl] at hp
      exact absurd hp (by simp)
    | ok hr =>
      rw [hcl] at hp
      cases hre : rangeError ⟨loc, t, h, w, v, d0⟩ with
      | some msg =>
        rw [hre] at hp
        exact absurd hp (by simp)
      | none =>
        rw [hre] at hp
        injection hp with hp
        subst hp
        refine ⟨rfl, rfl, ⟨hr, rfl, rfl⟩, fun d => ?_⟩
        rw [if_neg (by simp)]
        dsimp only
        have hre2 : rangeError ⟨loc, t, h, w, v, d⟩ = none := hre
        rw [hre2]
        rfl

/-- C6 witness: at the readings of scenario A the stored prediction
timestamp is the scoring-time stamp 42. -/
theorem C6_amended_witness :
    (Prediction.mk "High" 42 7).date_generated = 42 :=
  (C6_amended ⟨7, 40, 20, 25, 0.3, 0⟩ true [] 42 [] ⟨"High", 42, 7⟩
    (by norm_num [predictEndpoint, rangeError, classifyMain, envOf, finalLevel,
      baseLevel, riskScore])).1

/-- C10: whenever the in-function range validation rejects the input,
the endpoint returns an error and the prediction store is unchanged — no
prediction is constructed or persisted. -/
theorem C10_validation_rejects_before_persist (req : PredictRequest)
    (locationExists : Bool) (hist : List HistText) (now : Nat) (db : List Prediction)
    (hrej : rangeError req ≠ none) :
    (∃ e, (predictEndpoint req locationExists hist now db).1 = Except.error e) ∧
    (predictEndpoint req locationExists hist now db).2 = db := by
  unfold predictEndpoint
  cases locationExists with
  | false =>
    rw [if_pos (by simp)]
    exact ⟨⟨"Location not found", rfl⟩, rfl⟩
  | true =>
    rw [if_neg (by simp)]
    cases hcl : classifyMain hist with
    | error e => exact ⟨⟨"Internal Server Error", rfl⟩, rfl⟩
    | ok hr =>
      cases hre : rangeError req with
      | none => exact absurd hre hrej
      | some msg => exact ⟨⟨msg, rfl⟩, rfl⟩

/-- C10 witness: temperature -10 fails validation; the endpoint errors
and the store stays empty. -/
theorem C10_validation_witness :
    (∃ e, (predictEndpoint ⟨1, -10, 50, 10, 0.5, 0⟩ true [] 0 []).1 = Except.error e) ∧
    (predictEndpoint ⟨1, -10, 50, 10, 0.5, 0⟩ true [] 0 []).2 = [] :=
  C10_validation_rejects_before_persist ⟨1, -10, 50, 10, 0.5, 0⟩ true [] 0 []
    (by
      intro hcon
      norm_num [rangeError] at hcon
      exact Option.noConfusion hcon)

/-- C1 witness: the score of scenario A decomposes per the point table
and its base classification is High. -/
theorem C1_additive_points_witness :
    riskScore ⟨40, 20, 25, 0.3⟩ =
      specTempPoints 40 + specHumidityPoints 20 + specWindPoints 25 + specVegPoints 0.3 ∧
    baseLevel (riskScore ⟨40, 20, 25, 0.3⟩) = "High" :=
  ⟨(C1_additive_points_and_base_classification ⟨40, 20, 25, 0.3⟩).1,
   (C1_additive_points_and_base_classification ⟨40, 20, 25, 0.3⟩).2.1.mpr
     (by norm_num [riskScore])⟩
